import Mathlib

/-!
Verification of the text-extraction orchestration core of
`scripts/extract-text.py`: the three backend adapters
(`extract_with_trafilatura`, `extract_with_readability`,
`extract_with_beautifulsoup`), the word-count quality gate, the
fixed-priority fallback orchestrator `extract_text`, and the
compare-all aggregation of `main`.

The three wrapped libraries (trafilatura, readability-lxml,
BeautifulSoup) are opaque external capabilities.  They are modelled by
an environment `Env` recording, for each capability, whether its import
succeeds and what the library calls return (or which exception message
they raise) on a given HTML string.  The adapter and orchestrator code
of the script itself is translated faithfully below; all string
processing that the script performs itself (Python `str.split()`,
`[:200]` slicing, `re.sub` whitespace collapsing, `str.startswith`)
is modelled on the code-point level.
-/

/-- Python `s.startswith(pre)` on code points. -/
def strStartsWith (s pre : String) : Bool := pre.data.isPrefixOf s.data

/-- Python `s[:n]` slicing on code points. -/
def pyTake (n : Nat) (s : String) : String := ⟨s.data.take n⟩

/-- Helper for Python `str.split()`: walks the code points, accumulating
the current word reversed, and emits maximal runs of non-whitespace. -/
def pyWordsAux : List Char → List Char → List String
  | [], [] => []
  | [], acc => [⟨acc.reverse⟩]
  | c :: cs, acc =>
    if c.isWhitespace then
      match acc with
      | [] => pyWordsAux cs []
      | _ => ⟨acc.reverse⟩ :: pyWordsAux cs []
    else pyWordsAux cs (c :: acc)

/-- Python `s.split()` with no separator: the list of maximal
whitespace-free runs of `s`. -/
def pyWords (s : String) : List String := pyWordsAux s.data []

/-- Python `re.sub(r..s+, chr 32, text).strip()` as the script applies it:
every maximal whitespace run becomes a single space and outer whitespace
is removed, i.e. the words joined by single spaces. -/
def collapseWs (s : String) : String := " ".intercalate (pyWords s)

/-- One entry of the `headings` list built by `extract_with_beautifulsoup`
(the Python dict with keys `level` and `text`). -/
structure Heading where
  level : Nat
  text : String
deriving DecidableEq

/-- One entry of the `links` list built by `extract_with_beautifulsoup`
(the Python dict with keys `url` and `text`). -/
structure Link where
  url : String
  text : String
deriving DecidableEq

/-- One entry of the `images` list built by `extract_with_beautifulsoup`
(the Python dict with keys `url` and `alt`). -/
structure Image where
  url : String
  alt : Option String
deriving DecidableEq

/-- The `ExtractedMetadata` dataclass of the script. -/
structure ExtractedMetadata where
  title : Option String := none
  author : Option String := none
  date : Option String := none
  description : Option String := none
  sitename : Option String := none
  categories : Option (List String) := none
  tags : Option (List String) := none
  language : Option String := none
deriving DecidableEq

/-- The `ExtractionResult` dataclass of the script, with its field
defaults (`None` becomes `none`, `word_count` defaults to 0). -/
structure ExtractionResult where
  success : Bool
  text : Option String := none
  word_count : Nat := 0
  metadata : Option ExtractedMetadata := none
  method : Option String := none
  error : Option String := none
  title_extracted : Option String := none
  headings : Option (List Heading) := none
  links : Option (List Link) := none
  images : Option (List Image) := none
deriving DecidableEq

/-- The raw metadata object `trafilatura.extract_metadata` yields inside
the adapter's `try` block: optional scalar fields plus the possibly
empty `categories` and `tags` collections (Python treats both `None`
and an empty collection as falsy, so an empty list models both). -/
structure TrafMeta where
  title : Option String := none
  author : Option String := none
  date : Option String := none
  description : Option String := none
  sitename : Option String := none
  categories : List String := []
  tags : List String := []
  language : Option String := none

/-- The data the BeautifulSoup capability exposes to the adapter after
parsing and after the script's `decompose` calls removed
script/style/nav/...: the title tag's stripped text (if a title tag
exists), the `(level, stripped text)` of each heading tag in document
order, the `(href, stripped text)` of each `a` tag carrying an `href`
attribute, the `(src, alt)` of each `img` tag carrying a `src`
attribute (`none` = no alt attribute), and the stripped
`get_text` output of the main-content node the script selects. -/
structure SoupDoc where
  title : Option String := none
  headings : List (Nat × String) := []
  links : List (String × String) := []
  images : List (String × Option String) := []
  rawText : String := ""

/-- The opaque capabilities: for each backend library, whether it
imports successfully, and the outcome of its calls on a given HTML string
(`Except.error msg` models a raised exception caught by the adapter's
`try`/`except`).  For trafilatura, `trafExtract` is the outcome of
`trafilatura.extract(html, ...)` (`none` models Python `None`) and
`trafMeta` the outcome of `trafilatura.extract_metadata(html)`.  For
readability, `rdRun` is the combined outcome of
`Document(html).summary()`, `.title()` and the BeautifulSoup
`get_text` pass over the summary: the pair (raw text, title). -/
structure Env where
  trafAvailable : Bool
  trafExtract : String → Except String (Option String)
  trafMeta : String → Except String (Option TrafMeta)
  bsAvailable : Bool
  bsParse : String → Except String SoupDoc
  rdAvailable : Bool
  rdRun : String → Except String (String × String)

/-- `extract_with_trafilatura` of the script: import check, main-content
extraction with empty-result check, metadata extraction, word count
from `text.split()`; any exception becomes a tagged failure result. -/
def extract_with_trafilatura (env : Env) (html : String) : ExtractionResult :=
  if env.trafAvailable = false then
    { success := false, error := some "trafilatura not installed" }
  else
    match env.trafExtract html with
    | .error e => { success := false, error := some ("trafilatura error: " ++ e) }
    | .ok otext =>
      match otext with
      | none => { success := false, error := some "trafilatura returned empty" }
      | some text =>
        if text = "" then
          { success := false, error := some "trafilatura returned empty" }
        else
          match env.trafMeta html with
          | .error e => { success := false, error := some ("trafilatura error: " ++ e) }
          | .ok ometa =>
            let metadata : Option ExtractedMetadata := ometa.map (fun m =>
              { title := m.title
                author := m.author
                date := m.date
                description := m.description
                sitename := m.sitename
                categories := if m.categories = [] then none else some m.categories
                tags := if m.tags = [] then none else some m.tags
                language := m.language })
            { success := true
              text := some text
              word_count := (pyWords text).length
              metadata := metadata
              method := some "trafilatura"
              title_extracted := Option.bind ometa (fun m => m.title) }

/-- The link filter of `extract_with_beautifulsoup`:
`if href and not href.startswith(chr 35) and not
href.startswith javascript-scheme`. -/
def linkKeep (a : String × String) : Bool :=
  !(a.1 == "") && !(strStartsWith a.1 "#") && !(strStartsWith a.1 "javascript:")

/-- `extract_with_beautifulsoup` of the script: import check, parse,
headings/links/images collection with 200-char truncation and the link
filter, whitespace-collapsed body text, word count, and the 50/500/100
caps on the collected lists; any exception becomes a tagged failure. -/
def extract_with_beautifulsoup (env : Env) (html : String) : ExtractionResult :=
  if env.bsAvailable = false then
    { success := false, error := some "beautifulsoup4 not installed" }
  else
    match env.bsParse html with
    | .error e => { success := false, error := some ("beautifulsoup error: " ++ e) }
    | .ok doc =>
      let title := doc.title
      let headings := doc.headings.map (fun h =>
        ({ level := h.1, text := pyTake 200 h.2 } : Heading))
      let links := (doc.links.filter linkKeep).map (fun a =>
        ({ url := a.1, text := pyTake 200 a.2 } : Link))
      let images := doc.images.map (fun img =>
        ({ url := img.1
           alt := match img.2 with
                  | none => none
                  | some a => if a = "" then none else some (pyTake 200 a) } : Image))
      let text := collapseWs doc.rawText
      let words := pyWords text
      { success := true
        text := some text
        word_count := words.length
        method := some "beautifulsoup"
        title_extracted := title
        headings := some (headings.take 50)
        links := some (links.take 500)
        images := some (images.take 100) }

/-- `extract_with_readability` of the script: readability import check,
then BeautifulSoup import check, then summary/title extraction with
whitespace collapsing and word count; any exception becomes a tagged
failure result. -/
def extract_with_readability (env : Env) (html : String) : ExtractionResult :=
  if env.rdAvailable = false then
    { success := false, error := some "readability-lxml not installed" }
  else if env.bsAvailable = false then
    { success := false, error := some "beautifulsoup4 not installed" }
  else
    match env.rdRun html with
    | .error e => { success := false, error := some ("readability error: " ++ e) }
    | .ok pair =>
      let text := collapseWs pair.1
      let words := pyWords text
      { success := true
        text := some text
        word_count := words.length
        method := some "readability"
        title_extracted := some pair.2 }

/-- `extract_text` of the script: trafilatura gated at more than 50
words, then readability gated likewise, then ungated BeautifulSoup,
then the sub-gate trafilatura success, then trafilatura's failure. -/
def extract_text (env : Env) (html : String) : ExtractionResult :=
  let result := extract_with_trafilatura env html
  if result.success && decide (result.word_count > 50) then result
  else
    let result_readability := extract_with_readability env html
    if result_readability.success && decide (result_readability.word_count > 50) then
      result_readability
    else
      let result_bs := extract_with_beautifulsoup env html
      if result_bs.success then result_bs
      else if result.success then result
      else result

/-- The dictionary built by `main` in compare-all (`--output all`) mode:
the three raw adapter results plus the `preferred` entry holding what
`extract_text` chose. -/
structure CompareAllResults where
  trafilatura : ExtractionResult
  beautifulsoup : ExtractionResult
  readability : ExtractionResult
  preferred : ExtractionResult

/-- Compare-all mode of `main`: `result = extract_text(html)` is computed
first, then each adapter is run again for the comparison dictionary. -/
def compare_all (env : Env) (html : String) : CompareAllResults :=
  let result := extract_text env html
  { trafilatura := extract_with_trafilatura env html
    beautifulsoup := extract_with_beautifulsoup env html
    readability := extract_with_readability env html
    preferred := result }

/-- The quality gate exactly as the spec words it:
`passes(doc) = doc.success AND doc.wordCount > 50`. -/
def passes (doc : ExtractionResult) : Bool :=
  doc.success && decide (doc.word_count > 50)

/-- The five-step fallback algorithm exactly as the spec words it, over
the three adapter results (Primary, Secondary, Structural): gate the
first two, take the third on bare success, then the Primary partial
success, then the Primary failure. -/
def fallbackPolicy (p s st : ExtractionResult) : ExtractionResult :=
  if passes p then p
  else if passes s then s
  else if st.success then st
  else if p.success then p
  else p

/-- Consistency of `word_count` with `text` as the spec derives it:
the number of whitespace-split words when text is present, 0 when
text is absent. -/
def wordCountConsistent (r : ExtractionResult) : Prop :=
  match r.text with
  | some t => r.word_count = (pyWords t).length
  | none => r.word_count = 0

/-- A thirty-word text, below the 50-word quality gate. -/
def text30 : String := " ".intercalate (List.replicate 30 "lorem")

/-- Environment for the sub-gate corner case: trafilatura extracts a
30-word text with no metadata, BeautifulSoup is not installed (which
also makes readability fail). -/
def envPartial : Env :=
  { trafAvailable := true
    trafExtract := fun _ => Except.ok (some text30)
    trafMeta := fun _ => Except.ok none
    bsAvailable := true
    bsParse := fun _ => Except.error "boom"
    rdAvailable := true
    rdRun := fun _ => Except.error "boom" }

/-- Environment modelling an empty HTML document with all three
libraries installed: trafilatura returns `None`, readability raises,
and BeautifulSoup parses to a document with no body text at all. -/
def envEmptyDoc : Env :=
  { trafAvailable := true
    trafExtract := fun _ => Except.ok none
    trafMeta := fun _ => Except.ok none
    bsAvailable := true
    bsParse := fun _ => Except.ok { rawText := "" }
    rdAvailable := true
    rdRun := fun _ => Except.error "document is empty" }

/-- Environment whose parsed document carries exactly the four candidate
links of the link-filtering test case. -/
def envLinks : Env :=
  { trafAvailable := false
    trafExtract := fun _ => Except.ok none
    trafMeta := fun _ => Except.ok none
    bsAvailable := true
    bsParse := fun _ => Except.ok
      { links := [("#", "a"), ("javascript:void(0)", "b"), ("/about", "About"), ("", "d")]
        rawText := "some page words" }
    rdAvailable := false
    rdRun := fun _ => Except.error "not installed" }

/-- Environment whose parsed document carries 120 heading elements in
document order (distinct texts so order is observable). -/
def envHeads : Env :=
  { trafAvailable := false
    trafExtract := fun _ => Except.ok none
    trafMeta := fun _ => Except.ok none
    bsAvailable := true
    bsParse := fun _ => Except.ok
      { headings := (List.range 120).map (fun i => (1, toString i))
        rawText := "some page words" }
    rdAvailable := false
    rdRun := fun _ => Except.error "not installed" }

/-- Environment where no backend library is installed at all. -/
def envNone : Env :=
  { trafAvailable := false
    trafExtract := fun _ => Except.ok none
    trafMeta := fun _ => Except.ok none
    bsAvailable := false
    bsParse := fun _ => Except.error "boom"
    rdAvailable := false
    rdRun := fun _ => Except.error "boom" }

/-- Environment where trafilatura extracts a short text but the
BeautifulSoup library is missing, so readability fails its import check
while its own library is present. -/
def envNoBs : Env :=
  { trafAvailable := true
    trafExtract := fun _ => Except.ok (some "hello")
    trafMeta := fun _ => Except.ok none
    bsAvailable := false
    bsParse := fun _ => Except.error "boom"
    rdAvailable := true
    rdRun := fun _ => Except.error "boom" }

theorem strStartsWith_append (s t pre : String) (h : strStartsWith s pre = true) :
    strStartsWith (s ++ t) pre = true := by
  unfold strStartsWith at h ⊢
  rw [String.data_append]
  rw [List.isPrefixOf_iff_prefix] at h ⊢
  exact h.trans (List.prefix_append s.data t.data)

theorem extract_text_cases (env : Env) (html : String) :
    extract_text env html = extract_with_trafilatura env html ∨
    extract_text env html = extract_with_readability env html ∨
    extract_text env html = extract_with_beautifulsoup env html := by
  simp only [extract_text]
  split
  · exact Or.inl rfl
  · split
    · exact Or.inr (Or.inl rfl)
    · split
      · exact Or.inr (Or.inr rfl)
      · split
        · exact Or.inl rfl
        · exact Or.inl rfl

theorem extract_text_fail (env : Env) (html : String) :
    (extract_text env html).success = false →
    extract_text env html = extract_with_trafilatura env html := by
  simp only [extract_text]
  split
  · exact fun _ => rfl
  · split
    · rename_i hc2
      intro h
      rw [h] at hc2
      simp at hc2
    · split
      · rename_i hc3
        intro h
        rw [h] at hc3
        simp at hc3
      · split
        · exact fun _ => rfl
        · exact fun _ => rfl

theorem shape_disj {r : ExtractionResult}
    (h1 : r.success = true → r.text.isSome = true)
    (h2 : r.success = false → r.error.isSome = true) :
    (r.success = true ∧ r.text.isSome = true) ∨
    (r.success = false ∧ r.error.isSome = true) := by
  cases hs : r.success
  · exact Or.inr ⟨rfl, h2 hs⟩
  · exact Or.inl ⟨rfl, h1 hs⟩

theorem traf_shape (env : Env) (html : String) :
    ((extract_with_trafilatura env html).method.isSome =
        (extract_with_trafilatura env html).success) ∧
    ((extract_with_trafilatura env html).success = true →
      (extract_with_trafilatura env html).text.isSome = true ∧
      (extract_with_trafilatura env html).method = some "trafilatura") ∧
    ((extract_with_trafilatura env html).success = false →
      (extract_with_trafilatura env html).error.isSome = true) ∧
    wordCountConsistent (extract_with_trafilatura env html) ∧
    (extract_with_trafilatura env html).headings = none ∧
    (extract_with_trafilatura env html).links = none ∧
    (extract_with_trafilatura env html).images = none := by
  unfold extract_with_trafilatura
  repeat (first
    | exact ⟨rfl, fun h => Bool.noConfusion h, fun _ => rfl, rfl, rfl, rfl, rfl⟩
    | exact ⟨rfl, fun _ => ⟨rfl, rfl⟩, fun h => Bool.noConfusion h, rfl, rfl, rfl, rfl⟩
    | split)

theorem rd_shape (env : Env) (html : String) :
    ((extract_with_readability env html).method.isSome =
        (extract_with_readability env html).success) ∧
    ((extract_with_readability env html).success = true →
      (extract_with_readability env html).text.isSome = true ∧
      (extract_with_readability env html).method = some "readability") ∧
    ((extract_with_readability env html).success = false →
      (extract_with_readability env html).error.isSome = true) ∧
    wordCountConsistent (extract_with_readability env html) ∧
    (extract_with_readability env html).headings = none ∧
    (extract_with_readability env html).links = none ∧
    (extract_with_readability env html).images = none := by
  unfold extract_with_readability
  repeat (first
    | exact ⟨rfl, fun h => Bool.noConfusion h, fun _ => rfl, rfl, rfl, rfl, rfl⟩
    | exact ⟨rfl, fun _ => ⟨rfl, rfl⟩, fun h => Bool.noConfusion h, rfl, rfl, rfl, rfl⟩
    | split)

theorem bs_shape (env : Env) (html : String) :
    ((extract_with_beautifulsoup env html).method.isSome =
        (extract_with_beautifulsoup env html).success) ∧
    ((extract_with_beautifulsoup env html).success = true →
      (extract_with_beautifulsoup env html).text.isSome = true ∧
      (extract_with_beautifulsoup env html).method = some "beautifulsoup") ∧
    ((extract_with_beautifulsoup env html).success = false →
      (extract_with_beautifulsoup env html).error.isSome = true) ∧
    wordCountConsistent (extract_with_beautifulsoup env html) := by
  unfold extract_with_beautifulsoup
  repeat (first
    | exact ⟨rfl, fun h => Bool.noConfusion h, fun _ => rfl, rfl⟩
    | exact ⟨rfl, fun _ => ⟨rfl, rfl⟩, fun h => Bool.noConfusion h, rfl⟩
    | split)

theorem traf_fail_tagged (env : Env) (html : String) :
    (extract_with_trafilatura env html).success = false →
    ∃ e, (extract_with_trafilatura env html).error = some e ∧
      strStartsWith e "trafilatura" = true := by
  unfold extract_with_trafilatura
  split
  · exact fun _ => ⟨"trafilatura not installed", rfl, by decide⟩
  · split
    · rename_i e heq
      exact fun _ => ⟨"trafilatura error: " ++ e, rfl,
        strStartsWith_append "trafilatura error: " e "trafilatura" (by decide)⟩
    · split
      · exact fun _ => ⟨"trafilatura returned empty", rfl, by decide⟩
      · split
        · exact fun _ => ⟨"trafilatura returned empty", rfl, by decide⟩
        · split
          · rename_i e heq
            exact fun _ => ⟨"trafilatura error: " ++ e, rfl,
              strStartsWith_append "trafilatura error: " e "trafilatura" (by decide)⟩
          · exact fun h => Bool.noConfusion h

theorem bs_fail_tagged (env : Env) (html : String) :
    (extract_with_beautifulsoup env html).success = false →
    ∃ e, (extract_with_beautifulsoup env html).error = some e ∧
      strStartsWith e "beautifulsoup" = true := by
  unfold extract_with_beautifulsoup
  split
  · exact fun _ => ⟨"beautifulsoup4 not installed", rfl, by decide⟩
  · split
    · rename_i e heq
      exact fun _ => ⟨"beautifulsoup error: " ++ e, rfl,
        strStartsWith_append "beautifulsoup error: " e "beautifulsoup" (by decide)⟩
    · exact fun h => Bool.noConfusion h

theorem rd_fail_tagged (env : Env) (html : String) :
    (extract_with_readability env html).success = false →
    ∃ e, (extract_with_readability env html).error = some e ∧
      (strStartsWith e "readability" = true ∨ strStartsWith e "beautifulsoup4" = true) := by
  unfold extract_with_readability
  split
  · exact fun _ => ⟨"readability-lxml not installed", rfl, Or.inl (by decide)⟩
  · split
    · exact fun _ => ⟨"beautifulsoup4 not installed", rfl, Or.inr (by decide)⟩
    · split
      · rename_i e heq
        exact fun _ => ⟨"readability error: " ++ e, rfl,
          Or.inl (strStartsWith_append "readability error: " e "readability" (by decide))⟩
      · exact fun h => Bool.noConfusion h

theorem bs_caps (env : Env) (html : String) :
    ((extract_with_beautifulsoup env html).headings.getD []).length ≤ 50 ∧
    ((extract_with_beautifulsoup env html).links.getD []).length ≤ 500 ∧
    ((extract_with_beautifulsoup env html).images.getD []).length ≤ 100 ∧
    ((extract_with_beautifulsoup env html).headings.getD []).all
      (fun h => decide (h.text.length ≤ 200)) = true ∧
    ((extract_with_beautifulsoup env html).links.getD []).all
      (fun l => decide (l.text.length ≤ 200)) = true ∧
    ((extract_with_beautifulsoup env html).images.getD []).all
      (fun i => decide ((i.alt.getD "").length ≤ 200)) = true := by
  unfold extract_with_beautifulsoup
  split
  · simp
  · split
    · simp
    · refine ⟨List.length_take_le _ _, List.length_take_le _ _, List.length_take_le _ _,
        ?_, ?_, ?_⟩
      · refine List.all_eq_true.mpr ?_
        intro x hx
        obtain ⟨a, ha, rfl⟩ := List.mem_map.mp (List.mem_of_mem_take hx)
        simp only [decide_eq_true_eq, pyTake, String.length, List.length_take]
        exact Nat.min_le_left _ _
      · refine List.all_eq_true.mpr ?_
        intro x hx
        obtain ⟨a, ha, rfl⟩ := List.mem_map.mp (List.mem_of_mem_take hx)
        simp only [decide_eq_true_eq, pyTake, String.length, List.length_take]
        exact Nat.min_le_left _ _
      · refine List.all_eq_true.mpr ?_
        intro x hx
        obtain ⟨a, ha, rfl⟩ := List.mem_map.mp (List.mem_of_mem_take hx)
        obtain ⟨u, oalt⟩ := a
        rcases oalt with _ | s
        · simp
        · by_cases hs : s = ""
          · simp [hs]
          · simp only [hs, if_false, decide_eq_true_eq, pyTake, String.length,
              List.length_take, Option.getD_some]
            exact Nat.min_le_left _ _

/-- Claim C1: for every input, `extract_text` implements exactly the
five-step fallback of the spec: gated Primary (trafilatura), gated
Secondary (readability), ungated Structural (beautifulsoup) on bare
success, then the Primary sub-gate success, then the Primary failure
result, so the final error is the Primary backend's error and earlier
priority always wins. -/
theorem extract_text_five_step_fallback (env : Env) (html : String) :
    extract_text env html =
      fallbackPolicy (extract_with_trafilatura env html)
        (extract_with_readability env html)
        (extract_with_beautifulsoup env html) := rfl

set_option maxRecDepth 8192 in
/-- Claim C2 counterexample: when the Primary adapter succeeds with 30
words and both other adapters fail entirely, the final result is the
Primary result with `success = true` and `word_count = 30`, but its
`method` field is `some "trafilatura"`, not absent as claimed. -/
theorem sub_gate_method_not_absent :
    (extract_with_trafilatura envPartial "page").success = true ∧
    (extract_with_trafilatura envPartial "page").word_count = 30 ∧
    (extract_with_readability envPartial "page").success = false ∧
    (extract_with_beautifulsoup envPartial "page").success = false ∧
    extract_text envPartial "page" = extract_with_trafilatura envPartial "page" ∧
    (extract_text envPartial "page").method = some "trafilatura" ∧
    ¬(extract_text envPartial "page").method = none := by decide

/-- Claim C2 as amended: if the Primary adapter succeeds with
`word_count = 30` and the Secondary and Structural adapters both fail,
`extract_text` returns the Primary result verbatim, with
`success = true`, `word_count = 30`, and `method = some "trafilatura"`
(the Primary backend tag), i.e. the method field is set. -/
theorem sub_gate_returns_primary (env : Env) (html : String)
    (h1 : (extract_with_trafilatura env html).success = true)
    (h2 : (extract_with_trafilatura env html).word_count = 30)
    (h3 : (extract_with_readability env html).success = false)
    (h4 : (extract_with_beautifulsoup env html).success = false) :
    extract_text env html = extract_with_trafilatura env html ∧
    (extract_text env html).success = true ∧
    (extract_text env html).word_count = 30 ∧
    (extract_text env html).method = some "trafilatura" := by
  have hmain : extract_text env html = extract_with_trafilatura env html := by
    simp only [extract_text]
    rw [h2]
    simp [h1, h3, h4]
  refine ⟨hmain, ?_, ?_, ?_⟩
  · rw [hmain]; exact h1
  · rw [hmain]; exact h2
  · rw [hmain]; exact ((traf_shape env html).2.1 h1).2

set_option maxRecDepth 8192 in
/-- Claim C2 amended-claim witness at the concrete environment of the
counterexample. -/
theorem sub_gate_returns_primary_witness :
    extract_text envPartial "page" = extract_with_trafilatura envPartial "page" ∧
    (extract_text envPartial "page").success = true ∧
    (extract_text envPartial "page").word_count = 30 ∧
    (extract_text envPartial "page").method = some "trafilatura" :=
  sub_gate_returns_primary envPartial "page" (by decide) (by decide) (by decide) (by decide)

/-- Claim C3 counterexample: on an empty document (all libraries
installed, trafilatura returns `None`, readability raises, the soup
has no body text) `extract_text` returns the Structural result with
`success = true` and `text = some ""`, so the claimed "success implies
non-empty text" disjunction fails at this input. -/
theorem structural_empty_text_possible :
    (extract_text envEmptyDoc "").success = true ∧
    (extract_text envEmptyDoc "").text = some "" ∧
    ¬(((extract_text envEmptyDoc "").success = true ∧
        ¬(extract_text envEmptyDoc "").text = none ∧
        ¬(extract_text envEmptyDoc "").text.getD "" = "") ∨
      ((extract_text envEmptyDoc "").success = false ∧
        ¬(extract_text envEmptyDoc "").error = none)) := by decide

/-- Claim C3 as amended: exactly one of `success = true` (and then
`text` is present, though possibly empty) or `success = false` (and
then `error` is present) holds for every result of `extract_text`. -/
theorem success_text_or_error (env : Env) (html : String) :
    ((extract_text env html).success = true ∧
      (extract_text env html).text.isSome = true) ∨
    ((extract_text env html).success = false ∧
      (extract_text env html).error.isSome = true) := by
  rcases extract_text_cases env html with h | h | h <;> rw [h]
  · exact shape_disj (fun hs => ((traf_shape env html).2.1 hs).1) (traf_shape env html).2.2.1
  · exact shape_disj (fun hs => ((rd_shape env html).2.1 hs).1) (rd_shape env html).2.2.1
  · exact shape_disj (fun hs => ((bs_shape env html).2.1 hs).1) (bs_shape env html).2.2.1

/-- Claim C4: the result of `extract_text` has `method` set if and only
if `success = true`. -/
theorem method_set_iff_success (env : Env) (html : String) :
    (extract_text env html).method.isSome = (extract_text env html).success := by
  rcases extract_text_cases env html with h | h | h <;> rw [h]
  · exact (traf_shape env html).1
  · exact (rd_shape env html).1
  · exact (bs_shape env html).1

/-- Claim C5: every backend-level failure is converted inside the
adapters to `success = false` with an error string tagged with the
failing backend library's name, and a failing `extract_text` reports
the Primary backend's (trafilatura's) error; the embedding is a total
function, mirroring that no exception reaches the caller. -/
theorem failures_recovered_tagged (env : Env) (html : String) :
    ((extract_with_trafilatura env html).success = false →
      ∃ e, (extract_with_trafilatura env html).error = some e ∧
        strStartsWith e "trafilatura" = true) ∧
    ((extract_with_beautifulsoup env html).success = false →
      ∃ e, (extract_with_beautifulsoup env html).error = some e ∧
        strStartsWith e "beautifulsoup" = true) ∧
    ((extract_with_readability env html).success = false →
      ∃ e, (extract_with_readability env html).error = some e ∧
        (strStartsWith e "readability" = true ∨
          strStartsWith e "beautifulsoup4" = true)) ∧
    ((extract_text env html).success = false →
      ∃ e, (extract_text env html).error = some e ∧
        strStartsWith e "trafilatura" = true) := by
  refine ⟨traf_fail_tagged env html, bs_fail_tagged env html, rd_fail_tagged env html,
    fun h => ?_⟩
  have he := extract_text_fail env html h
  rw [he] at h ⊢
  exact traf_fail_tagged env html h

/-- Claim C5 witness: with no backend library installed, the failing
`extract_text` result carries trafilatura's tagged error. -/
theorem failures_recovered_tagged_witness :
    ∃ e, (extract_text envNone "page").error = some e ∧
      strStartsWith e "trafilatura" = true :=
  (failures_recovered_tagged envNone "page").2.2.2 (by decide)

/-- Claim C6: every link kept by the Structural adapter has a URL that
is non-empty, not the bare fragment, and not javascript-scheme; and on
the four candidate links of the test case only the `/about` link
survives. -/
theorem structural_link_filtering :
    (∀ env : Env, ∀ html : String,
      ((extract_with_beautifulsoup env html).links.getD []).all
        (fun l => !(l.url == "") && !(l.url == "#") &&
          !(strStartsWith l.url "javascript:")) = true) ∧
    (extract_with_beautifulsoup envLinks "page").links =
      some [{ url := "/about", text := "About" }] := by
  constructor
  · intro env html
    unfold extract_with_beautifulsoup
    split
    · simp
    · split
      · simp
      · refine List.all_eq_true.mpr ?_
        intro l hl
        obtain ⟨a, ha, rfl⟩ := List.mem_map.mp (List.mem_of_mem_take hl)
        have hk := (List.mem_filter.mp ha).2
        simp only [linkKeep, Bool.and_eq_true, Bool.not_eq_true'] at hk
        obtain ⟨⟨hne, hhash⟩, hjs⟩ := hk
        have hx : (a.1 == "#") = false := by
          cases hb : a.1 == "#"
          · rfl
          · have hab : a.1 = "#" := by simpa using hb
            rw [hab] at hhash
            exact absurd hhash (by decide)
        simp only [Bool.and_eq_true, Bool.not_eq_true']
        exact ⟨⟨hne, hx⟩, hjs⟩
  · decide

/-- Claim C7: list fields of any `extract_text` result never exceed
their caps (headings 50, links 500, images 100) and every
heading/link text and image alt is at most 200 characters; on a
document with 120 headings the output has exactly the first 50
headings in document order. -/
theorem caps_and_truncation :
    (∀ env : Env, ∀ html : String,
      ((extract_text env html).headings.getD []).length ≤ 50 ∧
      ((extract_text env html).links.getD []).length ≤ 500 ∧
      ((extract_text env html).images.getD []).length ≤ 100 ∧
      ((extract_text env html).headings.getD []).all
        (fun h => decide (h.text.length ≤ 200)) = true ∧
      ((extract_text env html).links.getD []).all
        (fun l => decide (l.text.length ≤ 200)) = true ∧
      ((extract_text env html).images.getD []).all
        (fun i => decide ((i.alt.getD "").length ≤ 200)) = true) ∧
    (extract_text envHeads "page").headings =
      some (((List.range 120).map
        (fun i => ({ level := 1, text := toString i } : Heading))).take 50) ∧
    ((extract_text envHeads "page").headings.getD []).length = 50 := by
  refine ⟨?_, ?_, ?_⟩
  · intro env html
    rcases extract_text_cases env html with h | h | h <;> rw [h]
    · have hs := traf_shape env html
      rw [hs.2.2.2.2.1, hs.2.2.2.2.2.1, hs.2.2.2.2.2.2]
      simp
    · have hs := rd_shape env html
      rw [hs.2.2.2.2.1, hs.2.2.2.2.2.1, hs.2.2.2.2.2.2]
      simp
    · exact bs_caps env html
  · decide
  · decide

/-- Claim C8: the `word_count` of every `extract_text` result equals
the number of whitespace-split words of its `text` when text is
present, and 0 when text is absent. -/
theorem word_count_matches_text (env : Env) (html : String) :
    wordCountConsistent (extract_text env html) := by
  rcases extract_text_cases env html with h | h | h <;> rw [h]
  · exact (traf_shape env html).2.2.2.1
  · exact (rd_shape env html).2.2.2.1
  · exact (bs_shape env html).2.2.2

/-- Claim C9: in compare-all mode the `preferred` entry equals exactly
what a single `extract_text` call returns, and the mapping carries the
three raw adapter results. -/
theorem compare_all_agrees (env : Env) (html : String) :
    (compare_all env html).preferred = extract_text env html ∧
    (compare_all env html).trafilatura = extract_with_trafilatura env html ∧
    (compare_all env html).beautifulsoup = extract_with_beautifulsoup env html ∧
    (compare_all env html).readability = extract_with_readability env html :=
  ⟨rfl, rfl, rfl, rfl⟩

/-- Claim C10: when the BeautifulSoup library is unavailable the
readability adapter can never succeed, and if its own library is
available it fails with exactly the error
`beautifulsoup4 not installed`. -/
theorem readability_requires_beautifulsoup (env : Env) (html : String)
    (h : env.bsAvailable = false) :
    (extract_with_readability env html).success = false ∧
    (env.rdAvailable = true →
      extract_with_readability env html =
        { success := false, error := some "beautifulsoup4 not installed" }) := by
  unfold extract_with_readability
  cases hrd : env.rdAvailable
  · simp [hrd]
  · simp [hrd, h]

/-- Claim C10 witness: readability installed, BeautifulSoup missing. -/
theorem readability_requires_beautifulsoup_witness :
    (extract_with_readability envNoBs "page").success = false ∧
    (envNoBs.rdAvailable = true →
      extract_with_readability envNoBs "page" =
        { success := false, error := some "beautifulsoup4 not installed" }) :=
  readability_requires_beautifulsoup envNoBs "page" rfl
